import Mathlib

/-!
Shallow embedding of the token-authentication and onboarding-progress core of
the slim-express fitness backend, together with proofs about it.

The definitions below are translated from:
  - src/models/User.js            (user schema, pre-save hook, instance methods)
  - src/utils/jwt.js              (token generation and verification wrappers)
  - src/controllers/authController.js       (login, token refresh)
  - src/controllers/onboardingController.js (section updates, completeOnboarding)

Modelling conventions:
  - timestamps are natural numbers (milliseconds since epoch for stored
    document dates, seconds since epoch for JWT expiry claims, matching the
    units each piece of JavaScript code actually uses);
  - an optional document field is an Option; JavaScript truthiness of a field
    is modelled explicitly (absent, the empty string and the number 0 are
    falsy; a Date object is truthy whenever present);
  - a signed JWT is modelled symbolically as the record of its claims plus the
    signing key and algorithm; two serialized tokens are equal as strings
    exactly when these records are equal;
  - schema fields that no claim under examination depends on (unit strings,
    activity level, the long medical sub-records, email, password hash, ...)
    are omitted from the records; every field that feeds the data-quality
    flags, the completeness score, the onboarding step or the refresh-token
    lifecycle is present.
-/

namespace SlimExpress

/-- JavaScript truthiness of an optional string field: an absent field and the
empty string are falsy, every other string is truthy. -/
def truthyStr : Option String → Bool
  | some s => s != ""
  | none => false

/-- JavaScript truthiness of an optional numeric field: absent and 0 are
falsy. -/
def truthyNum : Option Nat → Bool
  | some n => n != 0
  | none => false

/-- JavaScript truthiness of an optional Date field: a Date object is truthy
whenever it is present. -/
def truthyDate (o : Option Nat) : Bool := o.isSome

/-- Math.round applied to the nonnegative rational num / den (den > 0):
rounding half away from zero.  The source computes
Math.round((completedSections / sections.length) * 100); for a count of at
most 4 over a denominator of 4 every intermediate float is exact, so the
rational rounding below is the exact value the JavaScript expression
produces. -/
def jsRound (num den : Nat) : Nat := (2 * num + den) / (2 * den)

/-- Object.assign semantics for one key of a cleaned payload: a key present in
the payload overwrites, an absent (or null / undefined, which the method drops
before assigning) key leaves the stored value. -/
def mergeField (p old : Option α) : Option α :=
  match p with
  | some v => some v
  | none => old

/-- The basicInfo section of the user schema (fields that feed
dataQuality.hasBasicInfo, plus its completion stamp). -/
structure BasicInfo where
  name : Option String := none
  dateOfBirth : Option Nat := none
  height : Option Nat := none
  weight : Option Nat := none
  completedAt : Option Nat := none
  deriving DecidableEq, Repr

/-- The lifestyle section (fields that feed dataQuality.hasLifestyle). -/
structure Lifestyle where
  wakeUpTime : Option String := none
  sleepTime : Option String := none
  exerciseFrequency : Option String := none
  completedAt : Option Nat := none
  deriving DecidableEq, Repr

/-- The medicalHistory section (the gender field feeds
dataQuality.hasMedicalHistory). -/
structure MedicalHistory where
  gender : Option String := none
  completedAt : Option Nat := none
  deriving DecidableEq, Repr

/-- The goals section (fields that feed dataQuality.hasGoals). -/
structure Goals where
  primaryGoal : Option String := none
  targetWeight : Option Nat := none
  completedAt : Option Nat := none
  deriving DecidableEq, Repr

/-- The preferences section: a Mixed (schema-free) attribute bag, modelled as
an association list, plus the completion stamp the update method writes onto
it. -/
structure Preferences where
  entries : List (String × String) := []
  completedAt : Option Nat := none
  deriving DecidableEq, Repr

/-- The dataQuality sub-document of the user schema. -/
structure DataQuality where
  hasBasicInfo : Bool := false
  hasLifestyle : Bool := false
  hasMedicalHistory : Bool := false
  hasGoals : Bool := false
  hasPreferences : Bool := false
  completenessScore : String := "0%"
  deriving DecidableEq, Repr

/-- The sessionInfo telemetry sub-document. -/
structure SessionInfo where
  completionTimestamp : Option Nat := none
  completionDate : Option String := none
  totalXPEarned : Nat := 0
  userLevel : Nat := 1
  sectionsCompleted : Nat := 0
  deriving DecidableEq, Repr

/-- A signed JWT, modelled symbolically: the claims it carries together with
the algorithm of its header and the key its signature was produced with.  Its
signature verifies under key k exactly when secret = k. -/
structure SignedToken where
  userId : Nat
  typ : String
  jti : Nat
  issuer : String
  audience : String
  exp : Nat
  alg : String
  secret : String
  deriving DecidableEq, Repr

/-- One entry of the refreshTokens array: the literal token string and its
creation time in milliseconds. -/
structure RefreshTokenEntry where
  token : SignedToken
  createdAt : Nat
  deriving DecidableEq, Repr

/-- The user document, restricted to the fields of the authentication and
onboarding core. -/
structure User where
  refreshTokens : List RefreshTokenEntry := []
  lastLoginAt : Option Nat := none
  onboardingCompleted : Bool := false
  onboardingStep : Nat := 0
  profileCompleteness : Nat := 0
  sessionInfo : SessionInfo := {}
  basicInfo : BasicInfo := {}
  lifestyle : Lifestyle := {}
  medicalHistory : MedicalHistory := {}
  goals : Goals := {}
  preferences : Preferences := {}
  dataQuality : DataQuality := {}
  deriving DecidableEq, Repr

/-- The four required flags of the pre-save hook, recomputed from the presence
of the section fields exactly as the hook does; hasPreferences and the
completeness score are not touched by this part of the hook and are carried
over. -/
def computedFlags (u : User) : DataQuality :=
  { hasBasicInfo := truthyStr u.basicInfo.name &&
      truthyDate u.basicInfo.dateOfBirth &&
      truthyNum u.basicInfo.height &&
      truthyNum u.basicInfo.weight
    hasLifestyle := truthyStr u.lifestyle.wakeUpTime &&
      truthyStr u.lifestyle.sleepTime &&
      truthyStr u.lifestyle.exerciseFrequency
    hasMedicalHistory := truthyStr u.medicalHistory.gender
    hasGoals := truthyStr u.goals.primaryGoal &&
      truthyNum u.goals.targetWeight
    hasPreferences := u.dataQuality.hasPreferences
    completenessScore := u.dataQuality.completenessScore }

/-- Number of completed sections: the length of the filter of the four
required flags, as in the hook's sections.filter(...).length. -/
def countCompleted (dq : DataQuality) : Nat :=
  ([dq.hasBasicInfo, dq.hasLifestyle, dq.hasMedicalHistory,
    dq.hasGoals].filter id).length

/-- The completeness percentage the pre-save hook assigns, as a function of
the document being saved. -/
def computeCompleteness (u : User) : Nat :=
  jsRound (countCompleted (computedFlags u) * 100) 4

/-- The second pre-save hook of the user schema (User.js lines 364-424):
recompute the four required data-quality flags from field presence, recompute
profileCompleteness and the formatted completenessScore, and auto-complete
onboarding when completeness reaches 100 while onboardingCompleted is still
false. -/
def preSave (u : User) : User :=
  let dq := computedFlags u
  let pc := jsRound (countCompleted dq * 100) 4
  let u1 : User := { u with
    dataQuality := { dq with completenessScore := toString pc ++ "%" }
    profileCompleteness := pc }
  if pc == 100 && !u1.onboardingCompleted then
    { u1 with onboardingCompleted := true, onboardingStep := 6 }
  else
    u1

/-- Payload of an updateOnboardingSection call for basicInfo: each key either
absent (covers a missing, null or undefined key — all dropped by the method's
cleaning pass) or carrying a value to assign. -/
structure BasicInfoData where
  name : Option String := none
  dateOfBirth : Option Nat := none
  height : Option Nat := none
  weight : Option Nat := none
  deriving DecidableEq, Repr

/-- Payload for the lifestyle section. -/
structure LifestyleData where
  wakeUpTime : Option String := none
  sleepTime : Option String := none
  exerciseFrequency : Option String := none
  deriving DecidableEq, Repr

/-- Payload for the medicalHistory section. -/
structure MedicalHistoryData where
  gender : Option String := none
  deriving DecidableEq, Repr

/-- Payload for the goals section. -/
structure GoalsData where
  primaryGoal : Option String := none
  targetWeight : Option Nat := none
  deriving DecidableEq, Repr

/-- A section name together with the payload for that section, as passed to
updateOnboardingSection. -/
inductive SectionUpdate where
  | basicInfo (d : BasicInfoData)
  | lifestyle (d : LifestyleData)
  | medicalHistory (d : MedicalHistoryData)
  | goals (d : GoalsData)
  | preferences (d : List (String × String))
  deriving DecidableEq, Repr

/-- The stepMapping object of updateOnboardingSection. -/
def stepMapping : SectionUpdate → Nat
  | .basicInfo _ => 1
  | .lifestyle _ => 2
  | .medicalHistory _ => 3
  | .goals _ => 4
  | .preferences _ => 5

/-- Object.assign of one key into a Mixed attribute bag. -/
def assocSet (l : List (String × String)) (kv : String × String) :
    List (String × String) :=
  if l.any (fun p => p.1 == kv.1) then
    l.map (fun p => if p.1 == kv.1 then kv else p)
  else
    l ++ [kv]

/-- Object.assign of a whole payload into a Mixed attribute bag. -/
def assocMerge (old p : List (String × String)) : List (String × String) :=
  p.foldl assocSet old

/-- The updateOnboardingSection instance method (User.js lines 477-518): drop
null / undefined payload keys, shallow-merge the rest into the named section,
stamp the section's completedAt with the current time, and raise
onboardingStep to the section's step number when it is currently lower. -/
def updateOnboardingSection (u : User) (upd : SectionUpdate) (now : Nat) :
    User :=
  let u1 : User :=
    match upd with
    | .basicInfo d =>
      { u with basicInfo :=
        { name := mergeField d.name u.basicInfo.name
          dateOfBirth := mergeField d.dateOfBirth u.basicInfo.dateOfBirth
          height := mergeField d.height u.basicInfo.height
          weight := mergeField d.weight u.basicInfo.weight
          completedAt := some now } }
    | .lifestyle d =>
      { u with lifestyle :=
        { wakeUpTime := mergeField d.wakeUpTime u.lifestyle.wakeUpTime
          sleepTime := mergeField d.sleepTime u.lifestyle.sleepTime
          exerciseFrequency :=
            mergeField d.exerciseFrequency u.lifestyle.exerciseFrequency
          completedAt := some now } }
    | .medicalHistory d =>
      { u with medicalHistory :=
        { gender := mergeField d.gender u.medicalHistory.gender
          completedAt := some now } }
    | .goals d =>
      { u with goals :=
        { primaryGoal := mergeField d.primaryGoal u.goals.primaryGoal
          targetWeight := mergeField d.targetWeight u.goals.targetWeight
          completedAt := some now } }
    | .preferences d =>
      { u with preferences :=
        { entries := assocMerge u.preferences.entries d
          completedAt := some now } }
  if u1.onboardingStep < stepMapping upd then
    { u1 with onboardingStep := stepMapping upd }
  else
    u1

/-- One full section-update request as the onboarding controller performs it:
the updateOnboardingSection method followed by user.save(), whose pre-save
hook is preSave. -/
def updateAndSave (u : User) (upd : SectionUpdate) (now : Nat) : User :=
  preSave (updateOnboardingSection u upd now)

/-- A sequence of section-update requests applied in order. -/
def applyUpdates (u : User) (ups : List (SectionUpdate × Nat)) : User :=
  ups.foldl (fun v p => updateAndSave v p.1 p.2) u

/-- Configuration the JWT utilities read from the environment: signing
secret, issuer and audience strings, and the two expiry durations in
seconds. -/
structure JwtConfig where
  secret : String
  issuer : String
  audience : String
  accessExpiry : Nat
  refreshExpiry : Nat
  deriving DecidableEq, Repr

/-- The failure kinds of token verification, one per distinguishable error
class of the jsonwebtoken library plus the wrapper's own type check:
invalidSignature is the JsonWebTokenError class (bad signature, unexpected
algorithm, issuer or audience mismatch), expired is TokenExpiredError, and
wrongType is the plain Error the wrapper throws on a type-claim mismatch. -/
inductive VerifyError where
  | invalidSignature
  | expired
  | wrongType
  deriving DecidableEq, Repr

/-- Verification performed by the jsonwebtoken library's verify function,
modelled from its documented behaviour on our symbolic tokens, in the
library's check order: header algorithm against the allowed list, signature
against the key, then the exp, audience and issuer claims.  A token is
expired once the clock reaches exp. -/
def jwtVerify (key : String) (algorithms : List String)
    (issuer audience : String) (now : Nat) (t : SignedToken) :
    Except VerifyError SignedToken :=
  if t.alg ∉ algorithms then .error .invalidSignature
  else if t.secret ≠ key then .error .invalidSignature
  else if t.exp ≤ now then .error .expired
  else if t.audience ≠ audience then .error .invalidSignature
  else if t.issuer ≠ issuer then .error .invalidSignature
  else .ok t

/-- The generateAccessToken utility (jwt.js lines 10-26). -/
def generateAccessToken (cfg : JwtConfig) (userId jti now : Nat) :
    SignedToken :=
  { userId := userId, typ := "access", jti := jti, issuer := cfg.issuer
    audience := cfg.audience, exp := now + cfg.accessExpiry, alg := "HS256"
    secret := cfg.secret }

/-- The generateRefreshToken utility (jwt.js lines 29-45). -/
def generateRefreshToken (cfg : JwtConfig) (userId jti now : Nat) :
    SignedToken :=
  { userId := userId, typ := "refresh", jti := jti, issuer := cfg.issuer
    audience := cfg.audience, exp := now + cfg.refreshExpiry, alg := "HS256"
    secret := cfg.secret }

/-- The verifyToken utility (jwt.js lines 48-67): library verification pinned
to the single algorithm HS256 and the configured issuer and audience,
followed by the token-type check. -/
def verifyToken (cfg : JwtConfig) (now : Nat) (t : SignedToken)
    (expectedType : String) : Except VerifyError SignedToken :=
  match jwtVerify cfg.secret ["HS256"] cfg.issuer cfg.audience now t with
  | .error e => .error e
  | .ok d => if d.typ ≠ expectedType then .error .wrongType else .ok d

/-- The isValidRefreshToken instance method (User.js lines 571-577): some
entry matches the token string and its 7-day window (604800000 ms) has not
elapsed. -/
def isValidRefreshToken (u : User) (token : SignedToken) (now : Nat) : Bool :=
  u.refreshTokens.any fun tokenObj =>
    tokenObj.token == token && decide (now < tokenObj.createdAt + 604800000)

/-- The refresh-token bookkeeping of the login controller (authController.js
lines 93-106): push the freshly issued refresh token, keep only the last 5
entries when the array exceeds 5 (slice(-5)), and update lastLoginAt. -/
def loginRefreshTokens (u : User) (rt : SignedToken) (now : Nat) : User :=
  let toks := u.refreshTokens ++ [{ token := rt, createdAt := now }]
  let toks := if toks.length > 5 then toks.drop (toks.length - 5) else toks
  { u with refreshTokens := toks, lastLoginAt := some now }

/-- A sequence of successful logins for one user, each issuing the given
refresh token at the given time. -/
def loginMany (u : User) (logins : List (SignedToken × Nat)) : User :=
  logins.foldl (fun v p => loginRefreshTokens v p.1 p.2) u

/-- Outcome of the refresh-token controller, one constructor per response
branch (authController.js lines 229-301): missing body token (400), a
JsonWebTokenError / TokenExpiredError from verification (401), a wrong
token-type claim (401), a subject that no longer exists (401), a token string
absent from the stored refreshTokens (401 revoked), or success carrying the
newly issued access token and the user document the handler leaves
untouched. -/
inductive RefreshResult where
  | missingToken
  | invalidRefreshToken
  | invalidTokenType
  | userNotFound
  | revokedOrUnknown
  | success (accessToken : SignedToken) (user : User)
  deriving DecidableEq, Repr

/-- The refreshToken controller (authController.js lines 229-301): verify the
presented token with the library (issuer and audience hard-coded, no
algorithms option, so the library's default HMAC list applies), check the
type claim is refresh, load the subject user, require the literal token
string to still be stored, and issue one new access token.  The user document
is not modified and no refresh token is rotated. -/
def refreshFlow (cfg : JwtConfig) (findById : Nat → Option User)
    (now jti : Nat) (body : Option SignedToken) : RefreshResult :=
  match body with
  | none => .missingToken
  | some rt =>
    match jwtVerify cfg.secret ["HS256", "HS384", "HS512"]
        "fitness-app" "fitness-app-users" now rt with
    | .error _ => .invalidRefreshToken
    | .ok decoded =>
      if decoded.typ ≠ "refresh" then .invalidTokenType
      else
        match findById decoded.userId with
        | none => .userNotFound
        | some user =>
          if user.refreshTokens.any (fun tokenObj => tokenObj.token == rt) then
            .success (generateAccessToken cfg decoded.userId jti now) user
          else
            .revokedOrUnknown

/-- The four required flags of the completion gate, with their JavaScript
property names, in the order the controller lists them. -/
def requiredSectionFlags (dq : DataQuality) : List (String × Bool) :=
  [("hasBasicInfo", dq.hasBasicInfo), ("hasLifestyle", dq.hasLifestyle),
    ("hasMedicalHistory", dq.hasMedicalHistory), ("hasGoals", dq.hasGoals)]

/-- Removal of the leading has from a flag's property name, as in the
controller's section.replace applied with has and the empty string (all
four names start with has, so replacing the first occurrence drops the first
three characters). -/
def stripHas (s : String) : String := ⟨s.data.drop 3⟩

/-- JavaScript toLowerCase on the ASCII section names: character-wise
lowercasing. -/
def lowerAscii (s : String) : String := ⟨s.data.map Char.toLower⟩

/-- The incompleteSections list the completion gate reports: the names of the
required flags that are false, with the has prefix stripped and
lowercased. -/
def missingSections (u : User) : List String :=
  ((requiredSectionFlags u.dataQuality).filter (fun p => !p.2)).map
    (fun p => lowerAscii (stripHas p.1))

/-- Outcome of the completeOnboarding controller: user lookup failure (404),
the 400 gate naming the incomplete sections (carrying the user document the
handler leaves untouched), or success carrying the saved document. -/
inductive CompleteResult where
  | userNotFound
  | incompleteSections (missing : List String) (u : User)
  | completed (u : User)
  deriving DecidableEq, Repr

/-- The completeOnboarding controller (onboardingController.js lines
247-302): reject with the list of incomplete sections when any required
data-quality flag is false, otherwise set onboardingCompleted, step 6 and the
sessionInfo completion telemetry and save (running the pre-save hook). -/
def completeOnboarding (lookup : Option User) (now : Nat) (today : String) :
    CompleteResult :=
  match lookup with
  | none => .userNotFound
  | some user =>
    let missing := missingSections user
    if missing ≠ [] then
      .incompleteSections missing user
    else
      let user : User := { user with
        onboardingCompleted := true
        onboardingStep := 6
        sessionInfo := { user.sessionInfo with
          completionTimestamp := some now
          completionDate := some today
          sectionsCompleted := 4 } }
      .completed (preSave user)

/-- A user with every required section except goals filled in, used to
witness auto-completion on the last required section. -/
def almostDoneUser : User :=
  { basicInfo :=
      { name := some "Ada"
        dateOfBirth := some 631152000000
        height := some 170
        weight := some 70 }
    lifestyle :=
      { wakeUpTime := some "07:00"
        sleepTime := some "23:00"
        exerciseFrequency := some "3-4" }
    medicalHistory := { gender := some "Femme" } }

/-- Configuration used by the verifyToken witnesses. -/
def cfgW : JwtConfig :=
  { secret := "k", issuer := "fitness-app", audience := "fitness-app-users"
    accessExpiry := 900, refreshExpiry := 604800 }

/-- A well-formed access token under cfgW, issued at time 0. -/
def tokW : SignedToken := generateAccessToken cfgW 7 1 0

/-- The last n elements of a list, which is what JavaScript slice(-n)
returns (the whole list when it is shorter than n). -/
def lastN (n : Nat) (l : List α) : List α := l.drop (l.length - n)

/-- A user who filled basicInfo, lifestyle and medicalHistory but not goals
and then skipped onboarding: skipOnboarding sets onboardingCompleted and step
6 without requiring the four flags, so this state is reachable. -/
def skippedUser : User :=
  { onboardingCompleted := true
    onboardingStep := 6
    profileCompleteness := 75
    basicInfo :=
      { name := some "Ada"
        dateOfBirth := some 631152000000
        height := some 170
        weight := some 70 }
    lifestyle :=
      { wakeUpTime := some "07:00"
        sleepTime := some "23:00"
        exerciseFrequency := some "3-4" }
    medicalHistory := { gender := some "Femme" }
    dataQuality :=
      { hasBasicInfo := true
        hasLifestyle := true
        hasMedicalHistory := true
        hasGoals := false
        completenessScore := "75%" } }

/-- A user whose four required sections are all filled and flagged,
used to witness the success branch of the completion gate. -/
def gateUser : User :=
  { basicInfo :=
      { name := some "Bo"
        dateOfBirth := some 662688000000
        height := some 180
        weight := some 80 }
    lifestyle :=
      { wakeUpTime := some "06:30"
        sleepTime := some "22:30"
        exerciseFrequency := some "5-6" }
    medicalHistory := { gender := some "Homme" }
    goals := { primaryGoal := some "muscleGain", targetWeight := some 85 }
    profileCompleteness := 100
    dataQuality :=
      { hasBasicInfo := true
        hasLifestyle := true
        hasMedicalHistory := true
        hasGoals := true
        completenessScore := "100%" } }

/-! Helper lemmas about the pre-save hook. -/

theorem countCompleted_score (dq : DataQuality) (s : String) :
    countCompleted { dq with completenessScore := s } = countCompleted dq :=
  rfl

theorem preSave_profileCompleteness (u : User) :
    (preSave u).profileCompleteness = computeCompleteness u := by
  simp only [preSave, computeCompleteness]
  split <;> simp [countCompleted_score]

theorem preSave_dataQuality (u : User) :
    (preSave u).dataQuality =
      { computedFlags u with
        completenessScore := toString (computeCompleteness u) ++ "%" } := by
  simp only [preSave, computeCompleteness]
  split <;> simp [countCompleted_score]

theorem preSave_sessionInfo (u : User) :
    (preSave u).sessionInfo = u.sessionInfo := by
  simp only [preSave]
  split <;> rfl

theorem preSave_sections (u : User) :
    (preSave u).basicInfo = u.basicInfo ∧
    (preSave u).lifestyle = u.lifestyle ∧
    (preSave u).medicalHistory = u.medicalHistory ∧
    (preSave u).goals = u.goals ∧
    (preSave u).preferences = u.preferences := by
  simp only [preSave]
  split <;> exact ⟨rfl, rfl, rfl, rfl, rfl⟩

theorem preSave_of_completed (u : User) (h : u.onboardingCompleted = true) :
    (preSave u).onboardingCompleted = true ∧
    (preSave u).onboardingStep = u.onboardingStep := by
  unfold preSave
  simp [h]

theorem preSave_onboarding_cases (u : User) :
    ((preSave u).onboardingCompleted = u.onboardingCompleted ∧
      (preSave u).onboardingStep = u.onboardingStep) ∨
    ((preSave u).onboardingCompleted = true ∧
      (preSave u).onboardingStep = 6) := by
  simp only [preSave]
  split
  · exact Or.inr ⟨rfl, rfl⟩
  · exact Or.inl ⟨rfl, rfl⟩

theorem preSave_autocompletes (u : User) (hc : u.onboardingCompleted = false)
    (h100 : computeCompleteness u = 100) :
    (preSave u).onboardingCompleted = true ∧
    (preSave u).onboardingStep = 6 := by
  unfold preSave
  unfold computeCompleteness at h100
  simp [h100, hc]

/-! Helper lemmas about the section-update method. -/

theorem update_section_step (u : User) (upd : SectionUpdate) (now : Nat) :
    (updateOnboardingSection u upd now).onboardingStep
      = max u.onboardingStep (stepMapping upd) := by
  cases upd <;>
    (simp only [updateOnboardingSection, stepMapping]
     split <;> simp <;> omega)

theorem update_section_preserves (u : User) (upd : SectionUpdate)
    (now : Nat) :
    (updateOnboardingSection u upd now).onboardingCompleted
        = u.onboardingCompleted
      ∧ (updateOnboardingSection u upd now).dataQuality = u.dataQuality
      ∧ (updateOnboardingSection u upd now).sessionInfo = u.sessionInfo
      ∧ (updateOnboardingSection u upd now).refreshTokens
        = u.refreshTokens := by
  cases upd <;>
    (simp only [updateOnboardingSection]
     split <;> exact ⟨rfl, rfl, rfl, rfl⟩)

theorem stepMapping_le (upd : SectionUpdate) : stepMapping upd ≤ 5 := by
  cases upd <;> simp [stepMapping]

theorem updateAndSave_mono (u : User) (upd : SectionUpdate) (now : Nat)
    (h6 : u.onboardingStep ≤ 6) :
    u.onboardingStep ≤ (updateAndSave u upd now).onboardingStep
      ∧ (updateAndSave u upd now).onboardingStep ≤ 6
      ∧ (u.onboardingCompleted = true →
          (updateAndSave u upd now).onboardingCompleted = true) := by
  unfold updateAndSave
  have hv_step := update_section_step u upd now
  have hv_comp := (update_section_preserves u upd now).1
  have hm := stepMapping_le upd
  rcases preSave_onboarding_cases (updateOnboardingSection u upd now) with
    ⟨h1, h2⟩ | ⟨h1, h2⟩
  · refine ⟨?_, ?_, ?_⟩
    · omega
    · omega
    · intro h
      rw [h1, hv_comp, h]
  · refine ⟨?_, ?_, ?_⟩
    · omega
    · omega
    · intro _
      exact h1

/-- Claim C3: across any sequence of section updates (each one the
updateOnboardingSection method followed by a save), onboardingStep never
decreases and stays in range, and onboardingCompleted never transitions from
true back to false.  The per-update step value is max of the old step and the
section's step number (theorem update_section_step above feeds this proof);
stated over an arbitrary starting document whose step is in the schema's 0-6
range. -/
theorem onboarding_monotone (u : User) (ups : List (SectionUpdate × Nat))
    (h6 : u.onboardingStep ≤ 6) :
    u.onboardingStep ≤ (applyUpdates u ups).onboardingStep
      ∧ (applyUpdates u ups).onboardingStep ≤ 6
      ∧ (u.onboardingCompleted = true →
          (applyUpdates u ups).onboardingCompleted = true) := by
  induction ups generalizing u with
  | nil => exact ⟨Nat.le_refl _, h6, fun h => h⟩
  | cons p ps ih =>
    have hstep := updateAndSave_mono u p.1 p.2 h6
    have ihp := ih (updateAndSave u p.1 p.2) hstep.2.1
    simp only [applyUpdates, List.foldl_cons] at ihp ⊢
    exact ⟨Nat.le_trans hstep.1 ihp.1, ihp.2.1,
      fun h => ihp.2.2 (hstep.2.2 h)⟩

/-- Witness for onboarding_monotone: a fresh user put through a concrete
out-of-order update sequence. -/
theorem onboarding_monotone_witness :
    (({} : User)).onboardingStep ≤ 6
      ∧ (({} : User)).onboardingStep
          ≤ (applyUpdates {} [(.goals {}, 1), (.basicInfo {}, 2)]).onboardingStep
      ∧ (applyUpdates {} [(.goals {}, 1), (.basicInfo {}, 2)]).onboardingStep ≤ 6 := by
  refine ⟨by decide, ?_, ?_⟩
  · exact (onboarding_monotone {} [(.goals {}, 1), (.basicInfo {}, 2)]
      (by decide)).1
  · exact (onboarding_monotone {} [(.goals {}, 1), (.basicInfo {}, 2)]
      (by decide)).2.1

/-- Claim C1: after any save, profileCompleteness equals the rounding of
100 times the number of true flags among the four required data-quality flags
of the saved document, divided by 4; and the preferences section never
contributes to the ratio (replacing the whole preferences section leaves the
computed completeness unchanged). -/
theorem profileCompleteness_after_save (u : User) :
    (preSave u).profileCompleteness
        = jsRound (100 * countCompleted (preSave u).dataQuality) 4
      ∧ ∀ p : Preferences,
          (preSave { u with preferences := p }).profileCompleteness
            = (preSave u).profileCompleteness := by
  constructor
  · rw [preSave_profileCompleteness, preSave_dataQuality, countCompleted_score,
      computeCompleteness, Nat.mul_comm]
  · intro p
    rw [preSave_profileCompleteness, preSave_profileCompleteness]
    rfl

/-- Claim C2: a section update whose save recomputes completeness to 100 on a
user whose onboarding is not yet completed flips onboardingCompleted to true
and sets step 6, with no completeOnboarding call involved; the section and
payload are arbitrary, so the order the four sections were filled in is
irrelevant. -/
theorem section_update_autocompletes (u : User) (upd : SectionUpdate)
    (now : Nat) (hc : u.onboardingCompleted = false)
    (h100 : (updateAndSave u upd now).profileCompleteness = 100) :
    (updateAndSave u upd now).onboardingCompleted = true
      ∧ (updateAndSave u upd now).onboardingStep = 6 := by
  unfold updateAndSave at h100 ⊢
  rw [preSave_profileCompleteness] at h100
  refine preSave_autocompletes _ ?_ h100
  rw [(update_section_preserves u upd now).1]
  exact hc

/-- Witness for section_update_autocompletes: filling the goals section of
almostDoneUser completes onboarding automatically. -/
theorem section_update_autocompletes_witness :
    (updateAndSave almostDoneUser
        (.goals { primaryGoal := some "weightLoss", targetWeight := some 65 })
        50).onboardingCompleted = true
      ∧ (updateAndSave almostDoneUser
          (.goals { primaryGoal := some "weightLoss", targetWeight := some 65 })
          50).onboardingStep = 6 :=
  section_update_autocompletes almostDoneUser
    (.goals { primaryGoal := some "weightLoss", targetWeight := some 65 })
    50 rfl (by decide)

/-! Helper lemma characterising verifyToken as a chain of checks. -/

theorem verifyToken_eq (cfg : JwtConfig) (now : Nat) (t : SignedToken)
    (expectedType : String) :
    verifyToken cfg now t expectedType =
      if t.alg ≠ "HS256" then .error .invalidSignature
      else if t.secret ≠ cfg.secret then .error .invalidSignature
      else if t.exp ≤ now then .error .expired
      else if t.audience ≠ cfg.audience then .error .invalidSignature
      else if t.issuer ≠ cfg.issuer then .error .invalidSignature
      else if t.typ ≠ expectedType then .error .wrongType
      else .ok t := by
  simp only [verifyToken, jwtVerify, List.mem_singleton]
  by_cases h1 : t.alg = "HS256" <;>
    by_cases h2 : t.secret = cfg.secret <;>
      by_cases h3 : t.exp ≤ now <;>
        by_cases h4 : t.audience = cfg.audience <;>
          by_cases h5 : t.issuer = cfg.issuer <;>
            by_cases h6 : t.typ = expectedType <;>
              simp [h1, h2, h3, h4, h5, h6]

/-- Claim C4: verifyToken fails with the JsonWebTokenError kind
(invalidSignature) on a signature, algorithm, audience or issuer mismatch —
in particular on any token whose header algorithm is not exactly the
configured HS256 — fails with the TokenExpiredError kind once the clock
reaches the token's expiry (checked by the library before the audience and
issuer claims), fails with the wrongType kind when everything verifies but
the type claim differs from the expected type, and never returns claims in
any of these cases.  The three kinds are distinct constructors of
VerifyError. -/
theorem verifyToken_error_kinds (cfg : JwtConfig) (now : Nat)
    (t : SignedToken) (expectedType : String) :
    ((t.alg ≠ "HS256" ∨ t.secret ≠ cfg.secret) →
        verifyToken cfg now t expectedType = .error .invalidSignature)
    ∧ (t.alg = "HS256" → t.secret = cfg.secret → t.exp ≤ now →
        verifyToken cfg now t expectedType = .error .expired)
    ∧ (t.alg = "HS256" → t.secret = cfg.secret → now < t.exp →
        (t.audience ≠ cfg.audience ∨ t.issuer ≠ cfg.issuer) →
        verifyToken cfg now t expectedType = .error .invalidSignature)
    ∧ (t.alg = "HS256" → t.secret = cfg.secret → now < t.exp →
        t.audience = cfg.audience → t.issuer = cfg.issuer →
        t.typ ≠ expectedType →
        verifyToken cfg now t expectedType = .error .wrongType)
    ∧ ((t.alg ≠ "HS256" ∨ t.secret ≠ cfg.secret ∨ t.exp ≤ now ∨
        t.audience ≠ cfg.audience ∨ t.issuer ≠ cfg.issuer ∨
        t.typ ≠ expectedType) →
        ∀ c, verifyToken cfg now t expectedType ≠ .ok c) := by
  rw [verifyToken_eq]
  refine ⟨?_, ?_, ?_, ?_, ?_⟩
  · rintro (h | h) <;> split_ifs <;> first | rfl | tauto
  · intro h1 h2 h3
    split_ifs <;> first | rfl | tauto
  · intro h1 h2 h3 h
    have h3x : ¬ t.exp ≤ now := by omega
    rcases h with h | h <;> split_ifs <;> first | rfl | tauto
  · intro h1 h2 h3 h4 h5 h6
    have h3x : ¬ t.exp ≤ now := by omega
    split_ifs <;> first | rfl | tauto
  · intro h c
    split_ifs <;> first | tauto | simp

/-- Witness for verifyToken_error_kinds: a token signed with another secret,
an expired token, a token with the wrong audience, and a token with an
altered type claim each produce their distinct error kind, and none of them
verifies. -/
theorem verifyToken_error_kinds_witness :
    verifyToken cfgW 10 { tokW with secret := "other" } "access"
        = .error .invalidSignature
      ∧ verifyToken cfgW 2000 tokW "access" = .error .expired
      ∧ verifyToken cfgW 10 { tokW with audience := "elsewhere" } "access"
        = .error .invalidSignature
      ∧ verifyToken cfgW 10 tokW "refresh" = .error .wrongType
      ∧ ∀ c, verifyToken cfgW 10 tokW "refresh" ≠ .ok c := by
  refine ⟨?_, ?_, ?_, ?_, ?_⟩
  · exact (verifyToken_error_kinds cfgW 10 { tokW with secret := "other" }
      "access").1 (Or.inr (by decide))
  · exact (verifyToken_error_kinds cfgW 2000 tokW "access").2.1
      (by decide) (by decide) (by decide)
  · exact (verifyToken_error_kinds cfgW 10 { tokW with audience := "elsewhere" }
      "access").2.2.1 (by decide) (by decide) (by decide) (Or.inl (by decide))
  · exact (verifyToken_error_kinds cfgW 10 tokW "refresh").2.2.2.1
      (by decide) (by decide) (by decide) (by decide) (by decide) (by decide)
  · exact (verifyToken_error_kinds cfgW 10 tokW "refresh").2.2.2.2
      (Or.inr (Or.inr (Or.inr (Or.inr (Or.inr (by decide))))))

/-- Claim C6: isValidRefreshToken returns true exactly when some stored entry
carries the presented token string and the current time is still inside that
entry's 7-day window; consequently an entry whose createdAt lies 8 days in
the past never validates, even while it is still present in the sequence. -/
theorem isValidRefreshToken_iff (u : User) (token : SignedToken) (now : Nat) :
    isValidRefreshToken u token now = true
      ↔ ∃ e ∈ u.refreshTokens,
          e.token = token ∧ now < e.createdAt + 604800000 := by
  simp [isValidRefreshToken, List.any_eq_true, Bool.and_eq_true,
    decide_eq_true_eq, beq_iff_eq]

theorem lastN_eq_rtake (n : Nat) (l : List α) :
    lastN n l = (l.reverse.take n).reverse := by
  have h := List.reverse_take (l := l.reverse) (n := n)
  simp only [List.reverse_reverse, List.length_reverse] at h
  exact h.symm

theorem lastN_absorb (n : Nat) (a b : List α) :
    lastN n (lastN n a ++ b) = lastN n (a ++ b) := by
  simp only [lastN_eq_rtake, List.reverse_append, List.reverse_reverse]
  congr 1
  rw [List.take_append_eq_append_take, List.take_append_eq_append_take,
    List.take_take]
  congr 1
  congr 1
  simp only [List.length_reverse]
  omega

theorem lastN_append_of_le (n : Nat) (a b : List α) (h : n ≤ b.length) :
    lastN n (a ++ b) = lastN n b := by
  simp only [lastN_eq_rtake, List.reverse_append]
  rw [List.take_append_eq_append_take]
  have hz : n - b.reverse.length = 0 := by
    simp only [List.length_reverse]
    omega
  rw [hz, List.take_zero, List.append_nil]

theorem loginRefreshTokens_eq (u : User) (rt : SignedToken) (now : Nat) :
    (loginRefreshTokens u rt now).refreshTokens
      = lastN 5 (u.refreshTokens ++ [{ token := rt, createdAt := now }]) := by
  simp only [loginRefreshTokens, lastN]
  split
  · rfl
  · next hle =>
    have hz : (u.refreshTokens ++
        [({ token := rt, createdAt := now } : RefreshTokenEntry)]).length - 5
          = 0 := by omega
    rw [hz, List.drop_zero]

theorem loginMany_refreshTokens (logins : List (SignedToken × Nat)) (u : User)
    (hne : logins ≠ []) :
    (loginMany u logins).refreshTokens
      = lastN 5 (u.refreshTokens
          ++ logins.map fun p =>
            ({ token := p.1, createdAt := p.2 } : RefreshTokenEntry)) := by
  induction logins generalizing u with
  | nil => exact absurd rfl hne
  | cons x xs ih =>
    cases xs with
    | nil =>
      simpa [loginMany] using loginRefreshTokens_eq u x.1 x.2
    | cons y ys =>
      have hstep : loginMany u (x :: y :: ys)
          = loginMany (loginRefreshTokens u x.1 x.2) (y :: ys) := rfl
      rw [hstep, ih (loginRefreshTokens u x.1 x.2) (by simp),
        loginRefreshTokens_eq, lastN_absorb]
      simp

/-- Claim C7: after more than five logins, the stored refreshTokens sequence
is exactly the last five issued entries (slice(-5) of the issue order) and
has length exactly five, whatever the user's prior token list was. -/
theorem login_pruning (u : User) (logins : List (SignedToken × Nat))
    (h : logins.length > 5) :
    (loginMany u logins).refreshTokens
        = (logins.map fun p =>
            ({ token := p.1, createdAt := p.2 } : RefreshTokenEntry)).drop
              (logins.length - 5)
      ∧ (loginMany u logins).refreshTokens.length = 5 := by
  have hne : logins ≠ [] := by
    intro hh
    rw [hh] at h
    simp at h
  have hlen : 5 ≤ (logins.map fun p =>
      ({ token := p.1, createdAt := p.2 } : RefreshTokenEntry)).length := by
    simp
    omega
  rw [loginMany_refreshTokens logins u hne, lastN_append_of_le 5 _ _ hlen]
  constructor
  · simp [lastN]
  · simp [lastN]
    omega

/-- Witness for login_pruning: six logins on a fresh user leave exactly the
last five tokens. -/
theorem login_pruning_witness :
    ([(tokW, 1), (tokW, 2), (tokW, 3), (tokW, 4), (tokW, 5),
        (tokW, 6)] : List (SignedToken × Nat)).length > 5
      ∧ (loginMany {} [(tokW, 1), (tokW, 2), (tokW, 3), (tokW, 4), (tokW, 5),
          (tokW, 6)]).refreshTokens.length = 5 :=
  ⟨by decide,
    (login_pruning {} [(tokW, 1), (tokW, 2), (tokW, 3), (tokW, 4), (tokW, 5),
      (tokW, 6)] (by decide)).2⟩

/-- Claim C5: for a cryptographically valid refresh token (signature, issuer,
audience and expiry pass the controller's verification and the type claim is
refresh), the refresh flow answers userNotFound when the subject no longer
exists, revokedOrUnknown when the literal token string is absent from the
loaded user's refreshTokens — so revocation takes effect before cryptographic
expiry — and otherwise succeeds with exactly one newly issued access token
while returning the user document unchanged: the refresh token is neither
rotated nor reissued. -/
theorem refreshFlow_spec (cfg : JwtConfig) (findById : Nat → Option User)
    (now jti : Nat) (rt : SignedToken)
    (halg : rt.alg = "HS256") (hsec : rt.secret = cfg.secret)
    (hiss : rt.issuer = "fitness-app")
    (haud : rt.audience = "fitness-app-users")
    (hexp : now < rt.exp) (htyp : rt.typ = "refresh") :
    (findById rt.userId = none →
        refreshFlow cfg findById now jti (some rt) = .userNotFound)
      ∧ (∀ user : User, findById rt.userId = some user →
          rt ∉ user.refreshTokens.map RefreshTokenEntry.token →
          refreshFlow cfg findById now jti (some rt) = .revokedOrUnknown)
      ∧ (∀ user : User, findById rt.userId = some user →
          rt ∈ user.refreshTokens.map RefreshTokenEntry.token →
          refreshFlow cfg findById now jti (some rt)
            = .success (generateAccessToken cfg rt.userId jti now) user) := by
  have hexp2 : ¬ rt.exp ≤ now := by omega
  have hver : jwtVerify cfg.secret ["HS256", "HS384", "HS512"]
      "fitness-app" "fitness-app-users" now rt = .ok rt := by
    simp [jwtVerify, halg, hsec, hiss, haud, hexp2]
  refine ⟨?_, ?_, ?_⟩
  · intro h
    simp [refreshFlow, hver, htyp, h]
  · intro user hu habs
    have hany : user.refreshTokens.any
        (fun tokenObj => tokenObj.token == rt) = false := by
      rw [← Bool.not_eq_true, List.any_eq_true]
      simp only [List.mem_map, not_exists, not_and, beq_iff_eq] at habs ⊢
      push_neg
      intro e he
      intro hcontra
      exact habs e he hcontra
    simp [refreshFlow, hver, htyp, hu, hany]
  · intro user hu hmem
    have hany : user.refreshTokens.any
        (fun tokenObj => tokenObj.token == rt) = true := by
      rw [List.any_eq_true]
      rcases List.mem_map.mp hmem with ⟨e, he, hee⟩
      exact ⟨e, he, by simp [beq_iff_eq, hee]⟩
    simp [refreshFlow, hver, htyp, hu, hany]

/-- Witness for refreshFlow_spec: a concrete valid refresh token against a
store holding one user whose token list does not contain it (revoked), then
one whose list does contain it (success). -/
theorem refreshFlow_spec_witness :
    refreshFlow cfgW (fun _ => none) 10 9
        (some (generateRefreshToken cfgW 7 3 0)) = .userNotFound
      ∧ refreshFlow cfgW (fun _ => some {}) 10 9
          (some (generateRefreshToken cfgW 7 3 0)) = .revokedOrUnknown
      ∧ refreshFlow cfgW
          (fun _ => some
            { refreshTokens :=
                [{ token := generateRefreshToken cfgW 7 3 0, createdAt := 0 }] })
          10 9 (some (generateRefreshToken cfgW 7 3 0))
        = .success (generateAccessToken cfgW 7 9 10)
            { refreshTokens :=
                [{ token := generateRefreshToken cfgW 7 3 0, createdAt := 0 }] } := by
  refine ⟨?_, ?_, ?_⟩
  · exact (refreshFlow_spec cfgW (fun _ => none) 10 9
      (generateRefreshToken cfgW 7 3 0) (by decide) (by decide) (by decide)
      (by decide) (by decide) (by decide)).1 rfl
  · exact (refreshFlow_spec cfgW (fun _ => some {}) 10 9
      (generateRefreshToken cfgW 7 3 0) (by decide) (by decide) (by decide)
      (by decide) (by decide) (by decide)).2.1 {} rfl (by decide)
  · exact (refreshFlow_spec cfgW
      (fun _ => some
        { refreshTokens :=
            [{ token := generateRefreshToken cfgW 7 3 0, createdAt := 0 }] })
      10 9 (generateRefreshToken cfgW 7 3 0) (by decide) (by decide)
      (by decide) (by decide) (by decide) (by decide)).2.2
      { refreshTokens :=
          [{ token := generateRefreshToken cfgW 7 3 0, createdAt := 0 }] }
      rfl (by decide)

/-- Counterexample to claim C8 as stated: on skippedUser (reachable through
skipOnboarding) the completion gate fails naming goals, yet the untouched
user document has onboardingCompleted = true, not false — the gate leaves
onboardingCompleted unchanged rather than false. -/
theorem completeOnboarding_cex :
    completeOnboarding (some skippedUser) 99 "2026-01-01"
        = .incompleteSections ["goals"] skippedUser
      ∧ skippedUser.onboardingCompleted = true := by
  exact ⟨by decide, rfl⟩

theorem mem_missingSections (u : User) (nm : String) (b : Bool)
    (hmem : (nm, b) ∈ requiredSectionFlags u.dataQuality) (hb : b = false) :
    lowerAscii (stripHas nm) ∈ missingSections u := by
  have hf : (nm, b) ∈ (requiredSectionFlags u.dataQuality).filter
      (fun p => !p.2) := by
    rw [List.mem_filter]
    refine ⟨hmem, ?_⟩
    rw [hb]
    rfl
  unfold missingSections
  exact List.mem_map_of_mem (fun p => lowerAscii (stripHas p.1)) hf

/-- Claim C8 (amended): the completion gate fails with the list of missing
required sections exactly when some required flag is false, names each false
flag's section, and returns the user document unchanged (so
onboardingCompleted keeps its prior value — false whenever it was false);
when all four flags are true it completes: onboardingCompleted true, step 6,
and completion telemetry stamped in sessionInfo. -/
theorem completeOnboarding_gate (u : User) (now : Nat) (today : String) :
    (missingSections u ≠ [] →
        completeOnboarding (some u) now today
          = .incompleteSections (missingSections u) u)
      ∧ (missingSections u = [] ↔
          (u.dataQuality.hasBasicInfo && u.dataQuality.hasLifestyle &&
            u.dataQuality.hasMedicalHistory && u.dataQuality.hasGoals) = true)
      ∧ (u.dataQuality.hasBasicInfo = false → "basicinfo" ∈ missingSections u)
      ∧ (u.dataQuality.hasLifestyle = false → "lifestyle" ∈ missingSections u)
      ∧ (u.dataQuality.hasMedicalHistory = false →
          "medicalhistory" ∈ missingSections u)
      ∧ (u.dataQuality.hasGoals = false → "goals" ∈ missingSections u)
      ∧ (missingSections u = [] → ∃ v : User,
          completeOnboarding (some u) now today = .completed v
            ∧ v.onboardingCompleted = true
            ∧ v.onboardingStep = 6
            ∧ v.sessionInfo.completionTimestamp = some now
            ∧ v.sessionInfo.completionDate = some today
            ∧ v.sessionInfo.sectionsCompleted = 4) := by
  refine ⟨?_, ?_, ?_, ?_, ?_, ?_, ?_⟩
  · intro h
    simp only [completeOnboarding]
    rw [if_pos h]
  · cases hb : u.dataQuality.hasBasicInfo <;>
      cases hl : u.dataQuality.hasLifestyle <;>
        cases hm : u.dataQuality.hasMedicalHistory <;>
          cases hg : u.dataQuality.hasGoals <;>
            simp [missingSections, requiredSectionFlags, hb, hl, hm, hg]
  · intro h
    have hx := mem_missingSections u "hasBasicInfo" u.dataQuality.hasBasicInfo
      (by simp [requiredSectionFlags]) h
    have he : lowerAscii (stripHas "hasBasicInfo") = "basicinfo" := by decide
    rw [he] at hx
    exact hx
  · intro h
    have hx := mem_missingSections u "hasLifestyle" u.dataQuality.hasLifestyle
      (by simp [requiredSectionFlags]) h
    have he : lowerAscii (stripHas "hasLifestyle") = "lifestyle" := by decide
    rw [he] at hx
    exact hx
  · intro h
    have hx := mem_missingSections u "hasMedicalHistory"
      u.dataQuality.hasMedicalHistory (by simp [requiredSectionFlags]) h
    have he : lowerAscii (stripHas "hasMedicalHistory") = "medicalhistory" := by
      decide
    rw [he] at hx
    exact hx
  · intro h
    have hx := mem_missingSections u "hasGoals" u.dataQuality.hasGoals
      (by simp [requiredSectionFlags]) h
    have he : lowerAscii (stripHas "hasGoals") = "goals" := by decide
    rw [he] at hx
    exact hx
  · intro h
    simp only [completeOnboarding]
    rw [if_neg (by simp [h])]
    have h2 := preSave_of_completed { u with
      onboardingCompleted := true
      onboardingStep := 6
      sessionInfo := { u.sessionInfo with
        completionTimestamp := some now
        completionDate := some today
        sectionsCompleted := 4 } } rfl
    have h3 := preSave_sessionInfo { u with
      onboardingCompleted := true
      onboardingStep := 6
      sessionInfo := { u.sessionInfo with
        completionTimestamp := some now
        completionDate := some today
        sectionsCompleted := 4 } }
    exact ⟨_, rfl, h2.1, h2.2, by rw [h3], by rw [h3], by rw [h3]⟩

/-- Witness for completeOnboarding_gate: a fresh user is rejected with all
four sections named; gateUser completes. -/
theorem completeOnboarding_gate_witness :
    completeOnboarding (some ({} : User)) 5 "2026-02-03"
        = .incompleteSections
            ["basicinfo", "lifestyle", "medicalhistory", "goals"] {}
      ∧ (∃ v : User,
          completeOnboarding (some gateUser) 5 "2026-02-03" = .completed v
            ∧ v.onboardingCompleted = true
            ∧ v.onboardingStep = 6
            ∧ v.sessionInfo.completionTimestamp = some 5
            ∧ v.sessionInfo.completionDate = some "2026-02-03"
            ∧ v.sessionInfo.sectionsCompleted = 4) := by
  constructor
  · have h := (completeOnboarding_gate {} 5 "2026-02-03").1 (by decide)
    have h2 : missingSections ({} : User)
        = ["basicinfo", "lifestyle", "medicalhistory", "goals"] := by decide
    rw [h2] at h
    exact h
  · exact (completeOnboarding_gate gateUser 5 "2026-02-03").2.2.2.2.2.2
      (by decide)

/-- Claim C9, evaluated against the code: the pre-save hook never recomputes
dataQuality.hasPreferences (no code path writes it, so it keeps its prior
value — false from the schema default — even after the preferences section
has been touched), although the spec and the repository's API documentation
show it set once preferences are filled. -/
theorem hasPreferences_never_recomputed (u : User) (upd : SectionUpdate)
    (now : Nat) :
    (updateAndSave u upd now).dataQuality.hasPreferences
        = u.dataQuality.hasPreferences
      ∧ (updateAndSave {} (.preferences [("workoutDuration", "45")])
          1000).preferences.completedAt = some 1000
      ∧ (updateAndSave {} (.preferences [("workoutDuration", "45")])
          1000).dataQuality.hasPreferences = false := by
  refine ⟨?_, rfl, rfl⟩
  have h1 := (update_section_preserves u upd now).2.1
  unfold updateAndSave
  rw [preSave_dataQuality]
  simp [computedFlags, h1]

/-- Counterexample to claim C10 as stated: on a fresh user (onboardingStep
0), updateSection applied to basicInfo with an empty payload changes
onboardingStep from 0 to 1, because the method always raises the step to the
section's step number. -/
theorem emptyUpdate_step_cex :
    (({} : User)).onboardingStep = 0
      ∧ (updateAndSave {} (.basicInfo {}) 7).onboardingStep = 1 :=
  ⟨rfl, rfl⟩

theorem emptyBasic_fields (u : User) (now : Nat) :
    (updateOnboardingSection u (.basicInfo {}) now).basicInfo.name
        = u.basicInfo.name
      ∧ (updateOnboardingSection u (.basicInfo {}) now).basicInfo.dateOfBirth
        = u.basicInfo.dateOfBirth
      ∧ (updateOnboardingSection u (.basicInfo {}) now).basicInfo.height
        = u.basicInfo.height
      ∧ (updateOnboardingSection u (.basicInfo {}) now).basicInfo.weight
        = u.basicInfo.weight
      ∧ (updateOnboardingSection u (.basicInfo {}) now).basicInfo.completedAt
        = some now
      ∧ (updateOnboardingSection u (.basicInfo {}) now).lifestyle
        = u.lifestyle
      ∧ (updateOnboardingSection u (.basicInfo {}) now).medicalHistory
        = u.medicalHistory
      ∧ (updateOnboardingSection u (.basicInfo {}) now).goals = u.goals := by
  simp only [updateOnboardingSection, mergeField]
  split <;> exact ⟨rfl, rfl, rfl, rfl, rfl, rfl, rfl, rfl⟩

theorem emptyBasic_completeness (u : User) (now : Nat) :
    computeCompleteness (updateOnboardingSection u (.basicInfo {}) now)
      = computeCompleteness u := by
  have h := emptyBasic_fields u now
  simp only [computeCompleteness, computedFlags, h.1, h.2.1, h.2.2.1,
    h.2.2.2.1, h.2.2.2.2.2.1, h.2.2.2.2.2.2.1, h.2.2.2.2.2.2.2]
  simp [countCompleted]

theorem preSave_step_of_guard (v : User)
    (h : computeCompleteness v = 100 → v.onboardingCompleted = true) :
    (preSave v).onboardingStep = v.onboardingStep := by
  simp only [preSave]
  split
  · next hcond =>
    exfalso
    simp only [Bool.and_eq_true, beq_iff_eq, Bool.not_eq_true'] at hcond
    have h100 : computeCompleteness v = 100 := hcond.1
    have htrue := h h100
    rw [hcond.2] at htrue
    exact Bool.false_ne_true htrue
  · rfl

/-- Claim C10 (amended): an empty-payload basicInfo update on a persisted
user (one whose stored completeness is the recomputed value and whose
completed flag is set whenever completeness is 100, both invariants every
saved document satisfies) changes no stored basicInfo field value and leaves
profileCompleteness unchanged; the only changes are the refreshed
completedAt stamp and the onboarding step, which becomes max(step, 1) — in
particular it is unchanged for every user who has already reached step 1,
but rises from 0 to 1 on a fresh user. -/
theorem emptyUpdate_idempotent (u : User) (now : Nat)
    (hpc : u.profileCompleteness = computeCompleteness u)
    (hcomp : u.profileCompleteness = 100 → u.onboardingCompleted = true) :
    (updateAndSave u (.basicInfo {}) now).profileCompleteness
        = u.profileCompleteness
      ∧ (updateAndSave u (.basicInfo {}) now).basicInfo.name
        = u.basicInfo.name
      ∧ (updateAndSave u (.basicInfo {}) now).basicInfo.dateOfBirth
        = u.basicInfo.dateOfBirth
      ∧ (updateAndSave u (.basicInfo {}) now).basicInfo.height
        = u.basicInfo.height
      ∧ (updateAndSave u (.basicInfo {}) now).basicInfo.weight
        = u.basicInfo.weight
      ∧ (updateAndSave u (.basicInfo {}) now).basicInfo.completedAt
        = some now
      ∧ (updateAndSave u (.basicInfo {}) now).onboardingStep
        = max u.onboardingStep 1
      ∧ (1 ≤ u.onboardingStep →
          (updateAndSave u (.basicInfo {}) now).onboardingStep
            = u.onboardingStep) := by
  have hfields := emptyBasic_fields u now
  have hcc := emptyBasic_completeness u now
  have hsec := preSave_sections (updateOnboardingSection u (.basicInfo {}) now)
  have hguard : computeCompleteness
        (updateOnboardingSection u (.basicInfo {}) now) = 100 →
      (updateOnboardingSection u (.basicInfo {}) now).onboardingCompleted
        = true := by
    intro h100
    rw [(update_section_preserves u (.basicInfo {}) now).1]
    exact hcomp (by rw [hpc, ← hcc, h100])
  have hstep := preSave_step_of_guard _ hguard
  have hustep := update_section_step u (.basicInfo {}) now
  refine ⟨?_, ?_, ?_, ?_, ?_, ?_, ?_, ?_⟩
  · rw [updateAndSave, preSave_profileCompleteness, hcc, hpc]
  · rw [updateAndSave, hsec.1, hfields.1]
  · rw [updateAndSave, hsec.1, hfields.2.1]
  · rw [updateAndSave, hsec.1, hfields.2.2.1]
  · rw [updateAndSave, hsec.1, hfields.2.2.2.1]
  · rw [updateAndSave, hsec.1, hfields.2.2.2.2.1]
  · rw [updateAndSave, hstep, hustep]
    rfl
  · intro hge
    rw [updateAndSave, hstep, hustep]
    simp only [stepMapping]
    omega

/-- Witness for emptyUpdate_idempotent: the fresh user satisfies both
persisted-document invariants, and the empty update leaves its completeness
at 0 while refreshing completedAt. -/
theorem emptyUpdate_idempotent_witness :
    (({} : User)).profileCompleteness = computeCompleteness {}
      ∧ (updateAndSave {} (.basicInfo {}) 7).profileCompleteness
        = (({} : User)).profileCompleteness
      ∧ (updateAndSave {} (.basicInfo {}) 7).basicInfo.completedAt = some 7 :=
  ⟨by decide,
    (emptyUpdate_idempotent {} 7 (by decide) (by decide)).1,
    (emptyUpdate_idempotent {} 7 (by decide) (by decide)).2.2.2.2.2.1⟩

end SlimExpress









